import Mathlib

/-!
Shallow embedding of `src/main.py`, a Telegram chat bot that relays each
incoming text message to the DeepSeek chat-completion HTTP API and sends the
generated answer back, split into 4000-character fragments.

Modelling conventions:
* Python strings are Lean `String`s; character-level slicing (`texto[i:i+k]`)
  is modelled on `List Char` (Python slices by code point).
* Python exceptions that the handler code can raise or catch are the inductive
  `PyExc`; every constructor models a class deriving from `Exception`
  (`requests.exceptions.RequestException` includes `HTTPError`, which
  `raise_for_status` raises exactly for statuses 400 ≤ code < 600; a 1xx, 2xx
  or 3xx response returns normally and proceeds to JSON parsing).
* JSON bodies are the inductive `Json`; subscripting follows Python
  `__getitem__` semantics (missing dict key -> `KeyError`, out-of-range list
  index -> `IndexError`, non-subscriptable value -> `TypeError`).
* The observable behaviour of a handler invocation is its trace of outbound
  effects (`Event`): presence indicators, the completion-API request, and
  reply messages.  The completion provider is a parameter
  (`ProviderBehaviour`): it either raises or responds with a status and body.
* Handlers are total Lean functions: an exception escaping the handler would
  have to be modelled in the result type, so totality of the model together
  with the explicit exception plumbing in `cuerpoInterno` captures the
  "never raises past the boundary" behaviour of the `try`/`except` blocks.
-/

set_option autoImplicit false

/-- Python exception classes (all deriving from `Exception`) that the code in
`main.py` can raise or catch. `otherError` stands for any other
`Exception`-derived class. -/
inductive PyExc where
  | keyError
  | indexError
  | typeError
  | attributeError
  | requestException
  | otherError
deriving DecidableEq

/-- JSON values, as returned by `response.json()`. -/
inductive Json where
  | str : String → Json
  | num : Int → Json
  | bool : Bool → Json
  | null : Json
  | arr : List Json → Json
  | obj : List (String × Json) → Json

/-- Python `x[key]` for a string key, as used in
`respuesta_json['choices'][0]['message']['content']`: a dict lookup raises
`KeyError` when the key is absent; lists, strings, numbers and `None` raise
`TypeError` for a string subscript. -/
def Json.getStr : Json → String → Except PyExc Json
  | .obj kvs, k =>
    match kvs.lookup k with
    | some v => .ok v
    | none => .error .keyError
  | _, _ => .error .typeError

/-- Python `x[i]` for an integer index: list indexing raises `IndexError` out
of range; a dict raises `KeyError` (JSON object keys are strings, so an
integer key is never present); a string yields its i-th character or raises
`IndexError`; numbers and `None` raise `TypeError`. -/
def Json.getNat : Json → Nat → Except PyExc Json
  | .arr xs, i =>
    match xs.get? i with
    | some v => .ok v
    | none => .error .indexError
  | .obj _, _ => .error .keyError
  | .str s, i =>
    match s.toList.get? i with
    | some c => .ok (.str (String.mk [c]))
    | none => .error .indexError
  | _, _ => .error .typeError

/-- Python `str.strip()` on a character list: drop leading and trailing
whitespace. -/
def stripChars (l : List Char) : List Char :=
  ((l.dropWhile Char.isWhitespace).reverse.dropWhile Char.isWhitespace).reverse

/-- Python `s.strip()` on a string. -/
def pyStrip (s : String) : String :=
  String.mk (stripChars s.toList)

/-- Python `x.strip()`: only strings have the attribute `strip`; any other
value raises `AttributeError`. -/
def Json.strip : Json → Except PyExc String
  | .str s => .ok (pyStrip s)
  | _ => .error .attributeError

/-- `respuesta_json['choices'][0]['message']['content'].strip()` from
`handle_message`. -/
def extraerTexto (cuerpo : Json) : Except PyExc String := do
  let choices ← cuerpo.getStr "choices"
  let primero ← choices.getNat 0
  let mensaje ← primero.getStr "message"
  let contenido ← mensaje.getStr "content"
  contenido.strip

/-- `max_length = 4000  # Límite de Telegram por mensaje`. -/
def max_length : Nat := 4000

/-- The slices `texto_respuesta[i:i+max_length]` for
`i in range(0, len(texto_respuesta), max_length)`, via a fuel argument
(`fuel ≥ l.length` suffices, since each step consumes at least one
character of a non-empty list). -/
def fragmentosAux : Nat → List Char → List (List Char)
  | _, [] => []
  | 0, _ => []
  | fuel + 1, l => l.take max_length :: fragmentosAux fuel (l.drop max_length)

/-- The fragment list produced by the sending loop of `handle_message`. -/
def fragmentos (l : List Char) : List (List Char) :=
  fragmentosAux l.length l

/-- One role-tagged conversation turn of the completion request. -/
structure Mensaje where
  role : String
  content : String
deriving DecidableEq

/-- The JSON payload `{model, messages, max_tokens}` posted to the DeepSeek
API. -/
structure Payload where
  model : String
  messages : List Mensaje
  max_tokens : Nat
deriving DecidableEq

/-- The fixed system-role persona string of the payload. -/
def personaSistema : String :=
  "Eres un experto en redes WiFi y tecnología de consumo. Responde de forma sencilla, con humor y sin tecnicismos."

/-- The `payload` dict built by `handle_message` for an incoming text
`pregunta`. -/
def construirPayload (pregunta : String) : Payload :=
  { model := "deepseek-chat"
  , messages := [⟨"system", personaSistema⟩, ⟨"user", pregunta⟩]
  , max_tokens := 600 }

/-- Outbound effects a handler invocation can perform, in order. -/
inductive Event where
  | typing
  | apiRequest (payload : Payload)
  | reply (texto : String)
deriving DecidableEq

/-- The reply texts among a trace of events, in order. -/
def sentReplies (evs : List Event) : List String :=
  evs.filterMap fun e =>
    match e with
    | .reply t => some t
    | _ => none

/-- The completion-API request payloads among a trace of events, in order. -/
def sentRequests (evs : List Event) : List Payload :=
  evs.filterMap fun e =>
    match e with
    | .apiRequest p => some p
    | _ => none

/-- Behaviour of the `requests.post` call to the provider: it either raises
an exception itself, or returns a response with an HTTP status code and a
JSON body. -/
inductive ProviderBehaviour where
  | raises (e : PyExc)
  | responds (status : Nat) (cuerpo : Json)

/-- Apology text of the `except requests.exceptions.RequestException` clause. -/
def disculpaConexion : String :=
  "🔌 ¡Ups! Estoy teniendo problemas para conectar con mi cerebro. ¿Podrías intentarlo más tarde?"

/-- Apology text of the `except KeyError` clause. -/
def disculpaCerebro : String :=
  "🧠 ¡Vaya! Mi cerebro respondió de forma inesperada. ¿Puedes reformular tu pregunta?"

/-- Apology text of the final `except Exception` clause. -/
def disculpaGenerica : String :=
  "⚠️ ¡Ay! Algo salió mal. ¿Podrías intentarlo de nuevo?"

/-- The `except` cascade of `handle_message`: `RequestException` (including
`HTTPError`) gives the connectivity apology, `KeyError` the
malformed-response apology, and every other `Exception` the generic one. -/
def disculpaPara : PyExc → String
  | .requestException => disculpaConexion
  | .keyError => disculpaCerebro
  | _ => disculpaGenerica

/-- The sending loop of `handle_message`: for each fragment, a `typing`
presence indicator followed by the fragment as a reply. -/
def eventosExito (frs : List (List Char)) : List Event :=
  (frs.map fun f => [Event.typing, Event.reply (String.mk f)]).flatten

/-- The body of the `try` block of `handle_message`: the trace of effects
performed, paired with the exception (if any) that reaches the `except`
clauses. The typing indicator and the API request happen first; then either
the post raises, or `response.raise_for_status()` raises `HTTPError` (a
`RequestException`) — which requests does exactly for client- and
server-error statuses, `400 ≤ status_code < 600` — or the JSON extraction
raises, or the fragments of the stripped text are sent; a 1xx, 2xx or 3xx
response passes `raise_for_status` and proceeds to `response.json()`. -/
def cuerpoInterno (pregunta : String) (proveedor : ProviderBehaviour) :
    List Event × Option PyExc :=
  let prefijo : List Event := [Event.typing, Event.apiRequest (construirPayload pregunta)]
  match proveedor with
  | .raises e => (prefijo, some e)
  | .responds status cuerpo =>
    if 400 ≤ status ∧ status < 600 then (prefijo, some PyExc.requestException)
    else
      match extraerTexto cuerpo with
      | .error e => (prefijo, some e)
      | .ok texto => (prefijo ++ eventosExito (fragmentos texto.toList), none)

/-- `handle_message`: run the `try` body; an escaping exception is caught by
the matching `except` clause, which sends one apology reply. The function is
total: every `PyExc` is caught. -/
def handle_message (pregunta : String) (proveedor : ProviderBehaviour) :
    List Event :=
  match cuerpoInterno pregunta proveedor with
  | (evs, none) => evs
  | (evs, some e) => evs ++ [Event.reply (disculpaPara e)]

/-- The fixed welcome text of the `/start` handler. -/
def mensajeBienvenida : String :=
  "🎙️ ¡Bienvenido al conversatorio de tecnología!\n" ++
  "Hoy respondemos: *Internet lento, WiFi débil... ¿Es culpa del router o del vecino?*\n\n" ++
  "Hazme cualquier pregunta sobre WiFi, velocidad de internet o cómo mejorar tu red."

/-- Whether the `update.message.reply_text` call inside `start` succeeds or
raises. -/
inductive SendOutcome where
  | ok
  | raises (e : PyExc)

/-- The `/start` handler: one welcome reply; if sending raises, the exception
is logged and swallowed inside the handler, so the trace of delivered
messages is empty and nothing escapes (the function is total). -/
def start (envio : SendOutcome) : List Event :=
  match envio with
  | .ok => [Event.reply mensajeBienvenida]
  | .raises _ => []

/-- Process-level outcome of the module-level configuration block. -/
inductive Arranque where
  | fatal
  | corre (telegramToken deepseekKey : String)
deriving DecidableEq

/-- Python truthiness of `os.getenv` results: `None` and the empty string are
falsy, as tested by `if not TELEGRAM_BOT_TOKEN or not DEEPSEEK_API_KEY`. -/
def esFalsy : Option String → Bool
  | none => true
  | some s => s.isEmpty

/-- The module-level configuration block: with `dotenv` importable, the two
secrets are read from the environment and a falsy value raises `ValueError`,
which the `except Exception` clause logs and re-raises, so the module fails
to load and the process exits before serving (`Arranque.fatal`). With
`dotenv` missing, the `except ImportError` clause installs the placeholder
literals and the process continues. -/
def cargarConfig (dotenvDisponible : Bool) (env : String → Option String) :
    Arranque :=
  if dotenvDisponible then
    let t := env "TELEGRAM_TOKEN"
    let d := env "DEEPSEEK_API_KEY"
    if esFalsy t || esFalsy d then Arranque.fatal
    else Arranque.corre (t.getD "") (d.getD "")
  else
    Arranque.corre "TU_TELEGRAM_TOKEN" "TU_DEEPSEEK_API_KEY"

/-- Handling a batch of independent messages: the dispatcher invokes
`handle_message` once per update, with no shared state between invocations. -/
def procesarLote (lote : List (String × ProviderBehaviour)) : List (List Event) :=
  lote.map fun par => handle_message par.1 par.2

/-- A provider body of the shape the DeepSeek API documents:
`choices[0].message.content` holds the generated text `s`. -/
def cuerpoDemo (s : String) : Json :=
  Json.obj [("choices", Json.arr [Json.obj [("message", Json.obj [("content", Json.str s)])]])]

/-- A provider body whose first choice lacks the `content` key. -/
def cuerpoSinContenido : Json :=
  Json.obj [("choices", Json.arr [Json.obj [("message", Json.obj [])]])]

/-- A generated text of 4001 characters, one more than the fragment bound. -/
def textoLargo : String := String.mk (List.replicate 4001 'a')

/-- A well-formed provider body whose generated text has 4001 characters. -/
def cuerpoLargo : Json := cuerpoDemo textoLargo

/-! ## Helper lemmas about the fragment list -/

lemma fragmentosAux_nil (fuel : Nat) : fragmentosAux fuel [] = [] := by
  cases fuel <;> rfl

lemma fragmentosAux_flatten (fuel : Nat) :
    ∀ l : List Char, l.length ≤ fuel → (fragmentosAux fuel l).flatten = l := by
  induction fuel with
  | zero =>
    intro l hl
    have : l = [] := List.eq_nil_of_length_eq_zero (Nat.le_zero.mp hl)
    subst this
    rfl
  | succ f ih =>
    intro l hl
    cases l with
    | nil => rfl
    | cons a as =>
      have hm : max_length = 4000 := rfl
      have hlen : ((a :: as).drop max_length).length ≤ f := by
        rw [List.length_drop]
        simp only [List.length_cons] at hl ⊢
        omega
      simp only [fragmentosAux, List.flatten_cons, ih _ hlen, List.take_append_drop]

lemma fragmentosAux_length (fuel : Nat) :
    ∀ l : List Char, l.length ≤ fuel →
      (fragmentosAux fuel l).length = (l.length + (max_length - 1)) / max_length := by
  induction fuel with
  | zero =>
    intro l hl
    have : l = [] := List.eq_nil_of_length_eq_zero (Nat.le_zero.mp hl)
    subst this
    rfl
  | succ f ih =>
    intro l hl
    cases l with
    | nil => rfl
    | cons a as =>
      have hm : max_length = 4000 := rfl
      have hlen : ((a :: as).drop max_length).length ≤ f := by
        rw [List.length_drop]
        simp only [List.length_cons] at hl ⊢
        omega
      simp only [fragmentosAux, List.length_cons]
      rw [ih _ hlen, List.length_drop]
      simp only [hm, List.length_cons]
      omega

lemma fragmentosAux_get (fuel : Nat) :
    ∀ (l : List Char) (i : Nat), l.length ≤ fuel →
      (fragmentosAux fuel l).get? i =
        if max_length * i < l.length
        then some ((l.drop (max_length * i)).take max_length)
        else none := by
  induction fuel with
  | zero =>
    intro l i hl
    have : l = [] := List.eq_nil_of_length_eq_zero (Nat.le_zero.mp hl)
    subst this
    rw [fragmentosAux_nil]
    simp
  | succ f ih =>
    intro l i hl
    have hm : max_length = 4000 := rfl
    cases l with
    | nil =>
      rw [fragmentosAux_nil]
      simp
    | cons a as =>
      cases i with
      | zero =>
        simp only [fragmentosAux, List.get?]
        rw [if_pos]
        · simp
        · simp [hm]
      | succ i =>
        have hlen : ((a :: as).drop max_length).length ≤ f := by
          rw [List.length_drop]
          simp only [List.length_cons] at hl ⊢
          omega
        simp only [fragmentosAux, List.get?]
        rw [ih _ i hlen, List.length_drop, List.drop_drop]
        have harith : max_length + max_length * i = max_length * (i + 1) := by
          rw [Nat.mul_succ]
          omega
        rw [harith]
        by_cases h : max_length * (i + 1) < (a :: as).length
        · rw [if_pos, if_pos h]
          simp only [List.length_cons, hm] at h ⊢
          omega
        · rw [if_neg, if_neg h]
          simp only [List.length_cons, hm] at h ⊢
          omega

lemma fragmentos_flatten (l : List Char) : (fragmentos l).flatten = l :=
  fragmentosAux_flatten l.length l (Nat.le_refl _)

lemma fragmentos_length (l : List Char) :
    (fragmentos l).length = (l.length + 3999) / 4000 :=
  fragmentosAux_length l.length l (Nat.le_refl _)

lemma fragmentos_get (l : List Char) (i : Nat) :
    (fragmentos l).get? i =
      if 4000 * i < l.length then some ((l.drop (4000 * i)).take 4000) else none :=
  fragmentosAux_get l.length l i (Nat.le_refl _)

lemma fragmentos_corto (l : List Char) (h : l.length ≤ 4000) :
    fragmentos l = if l = [] then [] else [l] := by
  cases l with
  | nil => rfl
  | cons a as =>
    simp only [fragmentos, List.length_cons, fragmentosAux]
    have hdrop : (a :: as).drop max_length = [] := by
      apply List.drop_eq_nil_of_le
      simp only [List.length_cons] at h ⊢
      exact h
    have htake : (a :: as).take max_length = a :: as := by
      apply List.take_of_length_le
      simp only [List.length_cons] at h ⊢
      exact h
    rw [hdrop, htake, fragmentosAux_nil]
    simp

/-! ## Helper lemmas about traces and the handler -/

lemma mk_toList (s : String) : String.mk s.toList = s := by cases s; rfl

lemma getD_get? {α : Type} (l : List α) (i : Nat) (d : α) :
    l.getD i d = (l.get? i).getD d := by
  simp [List.getD_eq_getElem?_getD, List.get?_eq_getElem?]

lemma sentReplies_eventosExito (frs : List (List Char)) :
    sentReplies (eventosExito frs) = frs.map String.mk := by
  induction frs with
  | nil => rfl
  | cons f fs ih => simp [eventosExito, sentReplies] at ih ⊢; exact ih

lemma sentRequests_eventosExito (frs : List (List Char)) :
    sentRequests (eventosExito frs) = [] := by
  induction frs with
  | nil => rfl
  | cons f fs ih => simp [eventosExito, sentRequests]

lemma handle_message_exito (q : String) (status : Nat) (cuerpo : Json) (t : String)
    (hst : ¬(400 ≤ status ∧ status < 600))
    (h : extraerTexto cuerpo = Except.ok t) :
    handle_message q (ProviderBehaviour.responds status cuerpo) =
      [Event.typing, Event.apiRequest (construirPayload q)] ++
        eventosExito (fragmentos t.toList) := by
  simp [handle_message, cuerpoInterno, hst, h]

lemma handle_message_error (q : String) (status : Nat) (cuerpo : Json) (e : PyExc)
    (hst : ¬(400 ≤ status ∧ status < 600))
    (h : extraerTexto cuerpo = Except.error e) :
    handle_message q (ProviderBehaviour.responds status cuerpo) =
      [Event.typing, Event.apiRequest (construirPayload q),
       Event.reply (disculpaPara e)] := by
  simp [handle_message, cuerpoInterno, hst, h]

lemma handle_message_raises (q : String) (e : PyExc) :
    handle_message q (ProviderBehaviour.raises e) =
      [Event.typing, Event.apiRequest (construirPayload q),
       Event.reply (disculpaPara e)] := by
  simp [handle_message, cuerpoInterno]

lemma handle_message_estadoError (q : String) (status : Nat) (cuerpo : Json)
    (hst : 400 ≤ status ∧ status < 600) :
    handle_message q (ProviderBehaviour.responds status cuerpo) =
      [Event.typing, Event.apiRequest (construirPayload q),
       Event.reply disculpaConexion] := by
  simp [handle_message, cuerpoInterno, hst, disculpaPara]

lemma sentReplies_exito (q : String) (status : Nat) (cuerpo : Json) (t : String)
    (hst : ¬(400 ≤ status ∧ status < 600))
    (h : extraerTexto cuerpo = Except.ok t) :
    sentReplies (handle_message q (ProviderBehaviour.responds status cuerpo)) =
      (fragmentos t.toList).map String.mk := by
  rw [handle_message_exito q status cuerpo t hst h]
  have hrest := sentReplies_eventosExito (fragmentos t.toList)
  simp only [sentReplies, List.filterMap_append] at hrest ⊢
  rw [hrest]
  rfl

lemma stripChars_replicate (n : Nat) :
    stripChars (List.replicate n 'a') = List.replicate n 'a' := by
  have h : List.dropWhile Char.isWhitespace (List.replicate n 'a') = List.replicate n 'a' := by
    induction n with
    | zero => rfl
    | succ k ih => simp [List.replicate, List.dropWhile]
  unfold stripChars
  rw [h, List.reverse_replicate, h, List.reverse_replicate]

lemma extraccionLarga : extraerTexto cuerpoLargo = Except.ok textoLargo := by
  show Except.ok (pyStrip textoLargo) = Except.ok textoLargo
  unfold textoLargo pyStrip
  rw [show (String.mk (List.replicate 4001 'a')).toList = List.replicate 4001 'a' from rfl]
  rw [stripChars_replicate]

lemma textoLargoExcede : 4000 < textoLargo.toList.length := by
  unfold textoLargo
  rw [show (String.mk (List.replicate 4001 'a')).toList = List.replicate 4001 'a' from rfl]
  rw [List.length_replicate]
  omega

/-! ## Claims -/

/-- Claim C1: for every generated (trimmed) text of length L > 4000
characters, `handle_message` sends exactly `ceil(L / 4000)` outbound replies
(in Nat arithmetic, `(L + 3999) / 4000`), the i-th reply being the contiguous
slice `text[4000*i : 4000*i + 4000]`, and the concatenation of all replies in
order equals the trimmed generated text. The response status is any for
which `raise_for_status` does not raise. -/
theorem c1_fragmentacion (q : String) (status : Nat) (cuerpo : Json) (t : String)
    (hst : ¬(400 ≤ status ∧ status < 600))
    (hex : extraerTexto cuerpo = Except.ok t) (hlen : 4000 < t.toList.length) :
    (sentReplies (handle_message q (ProviderBehaviour.responds status cuerpo))).length
        = (t.toList.length + 3999) / 4000 ∧
    (∀ i : Nat,
      (sentReplies (handle_message q (ProviderBehaviour.responds status cuerpo))).get? i =
        if 4000 * i < t.toList.length
        then some (String.mk ((t.toList.drop (4000 * i)).take 4000))
        else none) ∧
    String.join (sentReplies (handle_message q (ProviderBehaviour.responds status cuerpo))) = t := by
  rw [sentReplies_exito q status cuerpo t hst hex]
  refine ⟨?_, ?_, ?_⟩
  · rw [List.length_map, fragmentos_length]
  · intro i
    rw [List.get?_map, fragmentos_get]
    by_cases h : 4000 * i < t.toList.length
    · rw [if_pos h, if_pos h]
      rfl
    · rw [if_neg h, if_neg h]
      rfl
  · apply String.ext
    rw [String.data_join, List.map_map]
    have hcomp : List.map (String.data ∘ String.mk) (fragmentos t.toList)
        = fragmentos t.toList := by
      induction fragmentos t.toList with
      | nil => rfl
      | cons x xs ih => simp [ih]
    rw [hcomp]
    exact fragmentos_flatten t.toList

/-- Witness for C1 at a concrete 4001-character generated text. -/
theorem c1_fragmentacion_witness :
    ¬(400 ≤ 200 ∧ 200 < 600) ∧
    extraerTexto cuerpoLargo = Except.ok textoLargo ∧
    4000 < textoLargo.toList.length ∧
    (sentReplies (handle_message "hola" (ProviderBehaviour.responds 200 cuerpoLargo))).length =
      (textoLargo.toList.length + 3999) / 4000 :=
  ⟨by decide, extraccionLarga, textoLargoExcede,
   (c1_fragmentacion "hola" 200 cuerpoLargo textoLargo (by decide)
     extraccionLarga textoLargoExcede).1⟩

/-- Claim C2: for every incoming text message and every provider behaviour,
`handle_message` issues exactly one completion request, and its payload is
the fixed model name `deepseek-chat`, exactly the two turns
`[system: persona, user: incoming text]` in that order, and `max_tokens`
600. -/
theorem c2_solicitud_unica (q : String) (prov : ProviderBehaviour) :
    sentRequests (handle_message q prov) = [construirPayload q] ∧
    construirPayload q =
      { model := "deepseek-chat"
      , messages := [⟨"system", personaSistema⟩, ⟨"user", q⟩]
      , max_tokens := 600 } := by
  refine ⟨?_, rfl⟩
  cases prov with
  | raises e => rw [handle_message_raises]; rfl
  | responds st cuerpo =>
    by_cases hst : 400 ≤ st ∧ st < 600
    · rw [handle_message_estadoError q st cuerpo hst]; rfl
    · cases hex : extraerTexto cuerpo with
      | error e => rw [handle_message_error q st cuerpo e hst hex]; rfl
      | ok t =>
        rw [handle_message_exito q st cuerpo t hst hex]
        have hrest := sentRequests_eventosExito (fragmentos t.toList)
        simp only [sentRequests, List.filterMap_append] at hrest ⊢
        rw [hrest]
        rfl

/-- Counterexample to claim C3 as stated: when the trimmed generated text is
empty (length 0 ≤ 4000), the sending loop `range(0, 0, 4000)` performs no
iteration, so no reply at all is sent — not "exactly one reply equal to the
trimmed text". -/
theorem c3_contraejemplo :
    extraerTexto (cuerpoDemo "   ") = Except.ok "" ∧
    sentReplies (handle_message "hola" (ProviderBehaviour.responds 200 (cuerpoDemo "   "))) = [] ∧
    ([] : List String) ≠ [""] :=
  ⟨rfl, rfl, by decide⟩

/-- Claim C3 (amended): for generated text whose trimmed form has length at
most 4000 characters, `handle_message` sends exactly one outbound reply equal
to the trimmed text when that text is non-empty, and sends no reply at all
when the trimmed text is empty. -/
theorem c3_respuesta_corta (q : String) (status : Nat) (cuerpo : Json) (t : String)
    (hst : ¬(400 ≤ status ∧ status < 600))
    (hex : extraerTexto cuerpo = Except.ok t) (hle : t.toList.length ≤ 4000) :
    sentReplies (handle_message q (ProviderBehaviour.responds status cuerpo)) =
      if t.toList.length = 0 then [] else [t] := by
  rw [sentReplies_exito q status cuerpo t hst hex, fragmentos_corto _ hle]
  by_cases h : t.toList = []
  · rw [if_pos h, if_pos]
    · rfl
    · rw [h]
      rfl
  · rw [if_neg h, if_neg]
    · show [String.mk t.toList] = [t]
      rw [mk_toList]
    · intro hlen0
      exact h (List.eq_nil_of_length_eq_zero hlen0)

/-- Witness for the amended C3 at the concrete text `hola`. -/
theorem c3_respuesta_corta_witness :
    ¬(400 ≤ 200 ∧ 200 < 600) ∧
    extraerTexto (cuerpoDemo "hola") = Except.ok "hola" ∧
    ("hola" : String).toList.length ≤ 4000 ∧
    sentReplies (handle_message "q" (ProviderBehaviour.responds 200 (cuerpoDemo "hola"))) =
      (if ("hola" : String).toList.length = 0 then [] else ["hola"]) :=
  ⟨by decide, rfl, by decide,
   c3_respuesta_corta "q" 200 (cuerpoDemo "hola") "hola" (by decide) rfl (by decide)⟩

/-- Counterexample to claim C4 as stated: the claim covers "any non-2xx HTTP
status", but `response.raise_for_status()` raises `HTTPError` only for
statuses 400–599. A final 304 response (non-2xx) with a well-formed JSON
body passes `raise_for_status`, is parsed, and its content is sent as a
normal reply — not the connectivity apology. -/
theorem c4_contraejemplo :
    sentReplies (handle_message "hola" (ProviderBehaviour.responds 304 (cuerpoDemo "hola"))) =
      ["hola"] ∧
    (["hola"] : List String) ≠ [disculpaConexion] :=
  ⟨rfl, by decide⟩

/-- Claim C4 (amended): if the provider call raises a transport error
(`RequestException`), or the response status is a client- or server-error
status (400–599, exactly those for which `raise_for_status` raises
`HTTPError`, a `RequestException`), then `handle_message` sends exactly one
outbound reply, the fixed connectivity-apology text; no exception escapes
(the model is a total function). A non-2xx status outside 400–599 is not
treated as a failure by the code. -/
theorem c4_error_transporte (q : String) (cuerpo : Json) (status : Nat) :
    sentReplies (handle_message q (ProviderBehaviour.raises PyExc.requestException)) =
      [disculpaConexion] ∧
    (400 ≤ status → status < 600 →
      sentReplies (handle_message q (ProviderBehaviour.responds status cuerpo)) =
        [disculpaConexion]) := by
  constructor
  · rw [handle_message_raises]
    rfl
  · intro h1 h2
    rw [handle_message_estadoError q status cuerpo ⟨h1, h2⟩]
    rfl

/-- Witness for the amended C4 at a transport error and at the concrete
server-error status 503. -/
theorem c4_error_transporte_witness :
    sentReplies (handle_message "hola" (ProviderBehaviour.raises PyExc.requestException)) =
      [disculpaConexion] ∧
    400 ≤ 503 ∧ 503 < 600 ∧
    sentReplies (handle_message "hola" (ProviderBehaviour.responds 503 (cuerpoDemo "x"))) =
      [disculpaConexion] :=
  ⟨(c4_error_transporte "hola" (cuerpoDemo "x") 503).1, by decide, by decide,
   (c4_error_transporte "hola" (cuerpoDemo "x") 503).2 (by decide) (by decide)⟩

/-- Counterexample to claim C5 as stated: for a response whose `choices` is
an empty list, `choices[0]` raises `IndexError`, which the `except KeyError`
clause does not catch; the final `except Exception` clause answers with the
generic apology, not the malformed-response apology. -/
theorem c5_contraejemplo :
    extraerTexto (Json.obj [("choices", Json.arr [])]) = Except.error PyExc.indexError ∧
    sentReplies (handle_message "hola"
        (ProviderBehaviour.responds 200 (Json.obj [("choices", Json.arr [])]))) =
      [disculpaGenerica] ∧
    disculpaGenerica ≠ disculpaCerebro :=
  ⟨rfl, rfl, by decide⟩

/-- Claim C5 (amended): when the field path `choices[0].message.content` is
missing through an absent key (missing `choices`, `message` or `content`, a
`KeyError`), exactly one reply is sent, equal to the malformed-response
apology; when it is missing through an empty `choices` list (an
`IndexError`), the single reply is the generic apology instead. -/
theorem c5_respuesta_malformada (q : String) (status : Nat) (cuerpo : Json)
    (hst : ¬(400 ≤ status ∧ status < 600)) :
    (extraerTexto cuerpo = Except.error PyExc.keyError →
      sentReplies (handle_message q (ProviderBehaviour.responds status cuerpo)) =
        [disculpaCerebro]) ∧
    (extraerTexto cuerpo = Except.error PyExc.indexError →
      sentReplies (handle_message q (ProviderBehaviour.responds status cuerpo)) =
        [disculpaGenerica]) := by
  constructor
  · intro h
    rw [handle_message_error q status cuerpo _ hst h]
    rfl
  · intro h
    rw [handle_message_error q status cuerpo _ hst h]
    rfl

/-- Witness for the amended C5: a body missing `content` gets the
malformed-response apology; a body with empty `choices` gets the generic
apology. -/
theorem c5_respuesta_malformada_witness :
    sentReplies (handle_message "q" (ProviderBehaviour.responds 200 cuerpoSinContenido)) =
      [disculpaCerebro] ∧
    sentReplies (handle_message "q"
        (ProviderBehaviour.responds 200 (Json.obj [("choices", Json.arr [])]))) =
      [disculpaGenerica] :=
  ⟨(c5_respuesta_malformada "q" 200 cuerpoSinContenido (by decide)).1 rfl,
   (c5_respuesta_malformada "q" 200 (Json.obj [("choices", Json.arr [])]) (by decide)).2 rfl⟩

/-- Claim C6: for every incoming text and every behaviour of the provider
call and JSON extraction, `handle_message` terminates normally: any exception
of the `try` body is answered with exactly one apology reply appended to the
events already performed, the success case adds nothing, and handling is
independent across messages (a batch is handled element-wise, so one
message's failure cannot affect another's handling). -/
theorem c6_contencion_errores (q : String) (prov : ProviderBehaviour) :
    (∀ e : PyExc, (cuerpoInterno q prov).2 = some e →
      handle_message q prov = (cuerpoInterno q prov).1 ++ [Event.reply (disculpaPara e)]) ∧
    ((cuerpoInterno q prov).2 = none → handle_message q prov = (cuerpoInterno q prov).1) ∧
    (∀ otros : List (String × ProviderBehaviour),
      procesarLote ((q, prov) :: otros) = handle_message q prov :: procesarLote otros) := by
  refine ⟨?_, ?_, ?_⟩
  · intro e he
    rcases hc : cuerpoInterno q prov with ⟨evs, exc⟩
    rw [hc] at he
    simp only at he
    subst he
    simp only [handle_message, hc]
  · intro he
    rcases hc : cuerpoInterno q prov with ⟨evs, exc⟩
    rw [hc] at he
    simp only at he
    subst he
    simp only [handle_message, hc]
  · intro otros
    rfl

/-- Witness for C6 at a concrete unexpected exception. -/
theorem c6_contencion_errores_witness :
    handle_message "hola" (ProviderBehaviour.raises PyExc.otherError) =
      (cuerpoInterno "hola" (ProviderBehaviour.raises PyExc.otherError)).1 ++
        [Event.reply (disculpaPara PyExc.otherError)] :=
  (c6_contencion_errores "hola" (ProviderBehaviour.raises PyExc.otherError)).1
    PyExc.otherError rfl

/-- Claim C7: the `/start` handler sends exactly one reply, the fixed welcome
text; if sending raises any exception, the handler swallows it: nothing
further is sent and nothing escapes (the model is a total function). -/
theorem c7_comando_start :
    start SendOutcome.ok = [Event.reply mensajeBienvenida] ∧
    ∀ e : PyExc, start (SendOutcome.raises e) = [] :=
  ⟨rfl, fun _ => rfl⟩

/-- Claim C8: with the `dotenv` dependency unavailable, startup falls back to
the two placeholder literals and continues; with it available but either
required secret missing from the environment, startup is fatal and the
process exits without serving. -/
theorem c8_configuracion (env : String → Option String) :
    cargarConfig false env =
      Arranque.corre "TU_TELEGRAM_TOKEN" "TU_DEEPSEEK_API_KEY" ∧
    ((env "TELEGRAM_TOKEN" = none ∨ env "DEEPSEEK_API_KEY" = none) →
      cargarConfig true env = Arranque.fatal) := by
  refine ⟨rfl, ?_⟩
  intro h
  unfold cargarConfig
  rcases h with h | h <;> simp [h, esFalsy]

/-- Witness for C8 at the concrete empty environment. -/
theorem c8_configuracion_witness :
    cargarConfig false (fun _ => none) =
      Arranque.corre "TU_TELEGRAM_TOKEN" "TU_DEEPSEEK_API_KEY" ∧
    cargarConfig true (fun _ => none) = Arranque.fatal :=
  ⟨(c8_configuracion (fun _ => none)).1,
   (c8_configuracion (fun _ => none)).2 (Or.inl rfl)⟩

/-- Claim C9: for any two incoming texts, the payloads built by
`handle_message` agree on the model name, the `max_tokens` value, the number
and order of turns, and the whole system turn; only the user-turn content
varies, and it equals the respective incoming text. -/
theorem c9_payload_constante (t1 t2 : String) :
    (construirPayload t1).model = (construirPayload t2).model ∧
    (construirPayload t1).max_tokens = (construirPayload t2).max_tokens ∧
    (construirPayload t1).messages.length = 2 ∧
    (construirPayload t2).messages.length = 2 ∧
    (construirPayload t1).messages.get? 0 = (construirPayload t2).messages.get? 0 ∧
    (construirPayload t1).messages.get? 0 = some ⟨"system", personaSistema⟩ ∧
    (construirPayload t1).messages.get? 1 = some ⟨"user", t1⟩ ∧
    (construirPayload t2).messages.get? 1 = some ⟨"user", t2⟩ :=
  ⟨rfl, rfl, rfl, rfl, rfl, rfl, rfl, rfl⟩

/-- Claim C10: on the success path every outbound reply has length at most
4000 characters, and every reply except possibly the last has length exactly
4000. -/
theorem c10_longitud_fragmentos (q : String) (status : Nat) (cuerpo : Json) (t : String)
    (hst : ¬(400 ≤ status ∧ status < 600))
    (hex : extraerTexto cuerpo = Except.ok t) :
    (∀ c ∈ sentReplies (handle_message q (ProviderBehaviour.responds status cuerpo)),
        c.length ≤ 4000) ∧
    (∀ i : Nat,
        i + 1 < (sentReplies (handle_message q (ProviderBehaviour.responds status cuerpo))).length →
        ((sentReplies (handle_message q (ProviderBehaviour.responds status cuerpo))).getD i "").length
          = 4000) := by
  rw [sentReplies_exito q status cuerpo t hst hex]
  constructor
  · intro c hc
    rw [List.mem_map] at hc
    obtain ⟨f, hf, rfl⟩ := hc
    rw [List.mem_iff_get?] at hf
    obtain ⟨n, hn⟩ := hf
    rw [fragmentos_get] at hn
    by_cases h : 4000 * n < t.toList.length
    · rw [if_pos h] at hn
      have hf : f = (t.toList.drop (4000 * n)).take 4000 := by
        injection hn with h2
        exact h2.symm
      subst hf
      show ((t.toList.drop (4000 * n)).take 4000).length ≤ 4000
      rw [List.length_take]
      omega
    · rw [if_neg h] at hn
      exact absurd hn (by simp)
  · intro i hi
    rw [List.length_map, fragmentos_length] at hi
    rw [getD_get?, List.get?_map, fragmentos_get]
    have hcond : 4000 * i < t.toList.length := by omega
    rw [if_pos hcond]
    show ((t.toList.drop (4000 * i)).take 4000).length = 4000
    rw [List.length_take, List.length_drop]
    omega

/-- Witness for C10 at the concrete text `hola`. -/
theorem c10_longitud_fragmentos_witness :
    ¬(400 ≤ 200 ∧ 200 < 600) ∧
    extraerTexto (cuerpoDemo "hola") = Except.ok "hola" ∧
    (∀ c ∈ sentReplies (handle_message "q" (ProviderBehaviour.responds 200 (cuerpoDemo "hola"))),
        c.length ≤ 4000) :=
  ⟨by decide, rfl,
   (c10_longitud_fragmentos "q" 200 (cuerpoDemo "hola") "hola" (by decide) rfl).1⟩
